import Mathlib

/-!
Shallow embedding of the Photo/Video sharing backend (`app/app.py`).

Modelling conventions:
* UUIDs (user ids, post ids) are modelled as natural numbers; the delete
  endpoint receives the id as a decimal string, standing in for the string
  form of a UUID.
* Timestamps (`created_at`) are natural numbers; the persistence layer
  assigns them from a monotone counter (`DB.nextTime`), mirroring the
  server-generated `created_at` column.  The feed renders a timestamp with
  an order-preserving serialization, so we keep the number itself.
* The external collaborators (temporary-file I/O, the ImageKit storage
  client, the database commit) are fallible; each call's outcome is an
  explicit parameter (`UploadFaults`), so one run of the model corresponds
  to one run of the handler under a fixed environment behaviour.
* Per-request operating-system resources touched by the upload handler are
  tracked in `ResState`: the temporary file on disk, the write handle
  returned by `NamedTemporaryFile`, the read handle from
  `open(temp_file_path, "rb")`, and the incoming request stream
  `file.file`.  A field is `true` while the resource exists / is open.
-/

/-- A row of the `user` table (only the fields the handlers read). -/
structure User where
  id : Nat
  email : String
deriving DecidableEq, Repr

/-- A row of the `post` table. -/
structure Post where
  id : Nat
  user_id : Nat
  caption : String
  url : String
  file_type : String
  file_name : String
  created_at : Nat
deriving DecidableEq, Repr

/-- The committed database state, together with the generators for the
server-assigned `id` and `created_at` columns. -/
structure DB where
  posts : List Post
  users : List User
  nextId : Nat
  nextTime : Nat
deriving DecidableEq, Repr

/-- The storage collaborator's reply object: `upload_result.url`,
`upload_result.name` and `upload_result.response_metadata.http_status_code`. -/
structure StorageResponse where
  url : String
  name : String
  http_status_code : Nat
deriving DecidableEq, Repr

/-- Outcome of the `imagekit.upload_file` call: either it raises an
exception with a message, or it returns a response object. -/
inductive StorageOutcome where
  | raises (msg : String)
  | returns (resp : StorageResponse)
deriving DecidableEq, Repr

/-- Environment behaviour for one run of the upload handler: whether
`NamedTemporaryFile` raises, whether `shutil.copyfileobj` raises, what the
storage call does, and whether `session.commit` raises. -/
structure UploadFaults where
  tempCreateFault : Option String
  copyFault : Option String
  storage : StorageOutcome
  commitFault : Option String
deriving DecidableEq, Repr

/-- What the upload handler produces for the HTTP caller. -/
inductive UploadResult where
  /-- the handler returns the `Post` object (HTTP 200 with the record) -/
  | ok (p : Post)
  /-- the handler falls off the end and returns Python `None`
      (HTTP 200 with a `null` body) -/
  | nullResponse
  /-- the handler raises `HTTPException(status, detail)` -/
  | httpError (status : Nat) (detail : String)
  /-- an exception other than `HTTPException` escapes the handler
      (the server reports a generic internal error) -/
  | serverError
deriving DecidableEq, Repr

/-- Per-request resource state after the upload handler returns. -/
structure ResState where
  /-- the `NamedTemporaryFile` path still exists in the filesystem -/
  tempFileOnDisk : Bool
  /-- the write handle returned by `NamedTemporaryFile` is still open -/
  tempWriteOpen : Bool
  /-- the read handle from `open(temp_file_path, "rb")` is still open -/
  tempReadOpen : Bool
  /-- the incoming request stream `file.file` is still open -/
  uploadStreamOpen : Bool
deriving DecidableEq, Repr

/-- Python `s.startswith(p)`, evaluated on the underlying character
lists. -/
def strStartsWith (s p : String) : Bool :=
  p.data.isPrefixOf s.data

/-- `"video" if file.content_type.startswith("video/") else "image"`. -/
def derive_file_type (content_type : String) : String :=
  if strStartsWith content_type "video/" then "video" else "image"

/-- The `Post` object the upload handler builds and commits on the
success path; the persistence layer assigns `id` and `created_at` from
its generators. -/
def uploadedPost (user_id : Nat) (content_type : String) (caption : String)
    (resp : StorageResponse) (db : DB) : Post :=
  { id := db.nextId
    user_id := user_id
    caption := caption
    url := resp.url
    file_type := derive_file_type content_type
    file_name := resp.name
    created_at := db.nextTime }

/-- The `POST /upload` handler `upload_file`.

Control flow mirrors the Python source:
1. `NamedTemporaryFile(delete=False, ...)` creates the temporary file and
   opens a write handle; `temp_file_path = temp_file.name`;
   `shutil.copyfileobj` copies the payload; leaving the `with` block closes
   the write handle.  If creating the temporary file raises, the variable
   `temp_file_path` is never bound, so the `finally` block itself raises
   `UnboundLocalError`: the in-flight `HTTPException(500)` is replaced by an
   unhandled error and `file.file.close()` is never reached.
2. `open(temp_file_path, "rb")` opens a read handle (it is evaluated before
   `imagekit.upload_file` is entered) and the code never closes it.
3. On a response with `http_status_code == 200` the handler builds the
   `Post`, `session.add`s it, commits (the commit assigns `id` and
   `created_at`), refreshes, and returns it.  On any other status code the
   `if` has no `else`: the handler returns `None`.
4. `except Exception as e: raise HTTPException(500, str(e))`.
5. `finally`: unlink the temporary file if it exists, and close
   `file.file`. -/
def upload_file (user_id : Nat) (content_type : String) (caption : String)
    (f : UploadFaults) (db : DB) : UploadResult × DB × ResState :=
  match f.tempCreateFault with
  | some _ =>
      (.serverError, db,
       { tempFileOnDisk := false, tempWriteOpen := false,
         tempReadOpen := false, uploadStreamOpen := true })
  | none =>
    match f.copyFault with
    | some msg =>
        (.httpError 500 msg, db,
         { tempFileOnDisk := false, tempWriteOpen := false,
           tempReadOpen := false, uploadStreamOpen := false })
    | none =>
      match f.storage with
      | .raises msg =>
          (.httpError 500 msg, db,
           { tempFileOnDisk := false, tempWriteOpen := false,
             tempReadOpen := true, uploadStreamOpen := false })
      | .returns resp =>
        if resp.http_status_code == 200 then
          match f.commitFault with
          | some msg =>
              (.httpError 500 msg, db,
               { tempFileOnDisk := false, tempWriteOpen := false,
                 tempReadOpen := true, uploadStreamOpen := false })
          | none =>
            let post : Post := uploadedPost user_id content_type caption resp db
            (.ok post,
             { db with
                posts := db.posts ++ [post]
                nextId := db.nextId + 1
                nextTime := db.nextTime + 1 },
             { tempFileOnDisk := false, tempWriteOpen := false,
               tempReadOpen := true, uploadStreamOpen := false })
        else
          (.nullResponse, db,
           { tempFileOnDisk := false, tempWriteOpen := false,
             tempReadOpen := true, uploadStreamOpen := false })

/-- One element of the `posts` array returned by `GET /feed`. -/
structure FeedEntry where
  id : String
  user_id : String
  caption : String
  url : String
  file_type : String
  file_name : String
  created_at : Nat
  is_owner : Bool
  email : String
deriving DecidableEq, Repr

/-- `user_dict = {u.id: u.email for u in users}` followed by
`user_dict.get(k, "Unknown")`.  A Python dict comprehension keeps the last
binding of a duplicated key, hence the search over the reversed list. -/
def user_dict_get (users : List User) (k : Nat) : String :=
  match users.reverse.find? (fun u => u.id == k) with
  | some u => u.email
  | none => "Unknown"

/-- The projection the feed handler builds for one post. -/
def postProj (caller_id : Nat) (users : List User) (p : Post) : FeedEntry :=
  { id := toString p.id
    user_id := toString p.user_id
    caption := p.caption
    url := p.url
    file_type := p.file_type
    file_name := p.file_name
    created_at := p.created_at
    is_owner := p.user_id == caller_id
    email := user_dict_get users p.user_id }

/-- `ORDER BY created_at DESC`: `a` may precede `b` when
`b.created_at ≤ a.created_at`. -/
def createdAtDesc (a b : Post) : Prop :=
  b.created_at ≤ a.created_at

instance : DecidableRel createdAtDesc :=
  fun a b => Nat.decLe b.created_at a.created_at

instance : IsTotal Post createdAtDesc :=
  ⟨fun a b => (Nat.le_total b.created_at a.created_at).imp id id⟩

instance : IsTrans Post createdAtDesc :=
  ⟨fun _ _ _ h1 h2 => Nat.le_trans h2 h1⟩

/-- The `GET /feed` handler `get_feed`: select all posts ordered by
`created_at` descending, select all users, build the projection for each
post, and return `{"posts": posts_data}`.  The handler only executes
`SELECT` statements, so the committed database state is returned
unchanged. -/
def get_feed (caller_id : Nat) (db : DB) : List FeedEntry × DB :=
  ((List.insertionSort createdAtDesc db.posts).map (postProj caller_id db.users),
   db)

/-- Result of the `DELETE /posts/{post_id}` handler: either the success
acknowledgment `{"success": True, "message": ...}` or an
`HTTPException`. -/
inductive DeleteResult where
  | ok (message : String)
  | httpError (status : Nat) (detail : String)
deriving DecidableEq, Repr

/-- `str(e)` for a raised `HTTPException(status, detail)` caught by the
broad `except` clause. -/
def httpExcStr (status : Nat) (detail : String) : String :=
  toString status ++ ": " ++ detail

/-- Accumulator loop for decimal parsing of an id string. -/
def parseDigitsAux : List Char → Nat → Option Nat
  | [], acc => some acc
  | c :: cs, acc =>
      if c.isDigit then parseDigitsAux cs (10 * acc + (c.toNat - 48))
      else none

/-- `uuid.UUID(post_id)`: parsing of the string form of an id (ids are
modelled as naturals, so this is decimal parsing; `none` is the
`ValueError` case). -/
def uuidParse (s : String) : Option Nat :=
  match s.data with
  | [] => none
  | cs => parseDigitsAux cs 0

/-- The `DELETE /posts/{post_id}` handler `delete_post`.

Everything runs inside `try ... except Exception as e: raise
HTTPException(500, str(e))`.  FastAPI's `HTTPException` is an `Exception`
subclass, so the deliberately raised `HTTPException(404, "Post not
found")` and `HTTPException(403, ...)` are caught by the broad clause and
rethrown as status 500 with `str(e)` as detail. -/
def delete_post (caller_id : Nat) (post_id : String) (db : DB) :
    DeleteResult × DB :=
  match uuidParse post_id with
  | none =>
      (.httpError 500 "badly formed hexadecimal UUID string", db)
  | some pid =>
    match db.posts.find? (fun p => p.id == pid) with
    | none =>
        (.httpError 500 (httpExcStr 404 "Post not found"), db)
    | some post =>
      if post.user_id == caller_id then
        (.ok "Post Deleted Successfully",
         { db with posts := db.posts.filter (fun q => !(q.id == post.id)) })
      else
        (.httpError 500
           (httpExcStr 403 "You didn't have access to delete this post."), db)

/-! ### Evaluation lemmas for the upload handler -/

theorem upload_file_eval_success (uid : Nat) (ct cap : String)
    (resp : StorageResponse) (db : DB) (h : resp.http_status_code = 200) :
    upload_file uid ct cap ⟨none, none, .returns resp, none⟩ db =
      (.ok (uploadedPost uid ct cap resp db),
       { db with
          posts := db.posts ++ [uploadedPost uid ct cap resp db]
          nextId := db.nextId + 1
          nextTime := db.nextTime + 1 },
       { tempFileOnDisk := false, tempWriteOpen := false,
         tempReadOpen := true, uploadStreamOpen := false }) := by
  simp [upload_file, h]

theorem upload_file_eval_non200 (uid : Nat) (ct cap : String)
    (resp : StorageResponse) (co : Option String) (db : DB)
    (h : resp.http_status_code ≠ 200) :
    upload_file uid ct cap ⟨none, none, .returns resp, co⟩ db =
      (.nullResponse, db,
       { tempFileOnDisk := false, tempWriteOpen := false,
         tempReadOpen := true, uploadStreamOpen := false }) := by
  simp [upload_file, beq_iff_eq, h]

/-- **C1**: the upload handler inserts and commits a new `Post` row iff
the storage response status code is 200 (given that the temporary-file
copy, the storage call itself and the commit do not raise); the committed
post carries the caller's id, the given caption, the storage response's
`url` and `name`, and the server-generated `id` and `created_at`, and it
is returned to the caller.  Unconditionally, the committed post list
changes only when some storage response with status 200 was received. -/
theorem upload_commits_iff_status_200 (uid : Nat) (ct cap : String)
    (f : UploadFaults) (db : DB) :
    (∀ resp : StorageResponse,
      f.tempCreateFault = none → f.copyFault = none →
      f.storage = .returns resp → f.commitFault = none →
      ((resp.http_status_code = 200 →
          (upload_file uid ct cap f db).1
            = .ok (uploadedPost uid ct cap resp db) ∧
          (upload_file uid ct cap f db).2.1.posts
            = db.posts ++ [uploadedPost uid ct cap resp db] ∧
          (uploadedPost uid ct cap resp db).user_id = uid ∧
          (uploadedPost uid ct cap resp db).caption = cap ∧
          (uploadedPost uid ct cap resp db).url = resp.url ∧
          (uploadedPost uid ct cap resp db).file_name = resp.name ∧
          (uploadedPost uid ct cap resp db).id = db.nextId ∧
          (uploadedPost uid ct cap resp db).created_at = db.nextTime) ∧
       (resp.http_status_code ≠ 200 →
          (upload_file uid ct cap f db).2.1 = db ∧
          (upload_file uid ct cap f db).1 = .nullResponse)))
    ∧ ((upload_file uid ct cap f db).2.1.posts ≠ db.posts →
        ∃ resp : StorageResponse,
          f.storage = .returns resp ∧ resp.http_status_code = 200) := by
  obtain ⟨tc, cf, st, co⟩ := f
  constructor
  · rintro resp h1 h2 h3 h4
    have h1' : tc = none := h1
    have h2' : cf = none := h2
    have h3' : st = .returns resp := h3
    have h4' : co = none := h4
    subst h1' h2' h3' h4'
    refine ⟨fun h200 => ?_, fun hne => ?_⟩
    · rw [upload_file_eval_success uid ct cap resp db h200]
      exact ⟨rfl, rfl, rfl, rfl, rfl, rfl, rfl, rfl⟩
    · rw [upload_file_eval_non200 uid ct cap resp none db hne]
      exact ⟨rfl, rfl⟩
  · intro hne
    rcases tc with _ | m1
    · rcases cf with _ | m2
      · rcases st with m3 | resp
        · exact absurd rfl hne
        · rcases co with _ | m4
          · by_cases h200 : resp.http_status_code = 200
            · exact ⟨resp, rfl, h200⟩
            · rw [upload_file_eval_non200 uid ct cap resp none db h200] at hne
              exact absurd rfl hne
          · have hdb : (upload_file uid ct cap
                ⟨none, none, .returns resp, some m4⟩ db).2.1 = db := by
              simp only [upload_file]
              split <;> rfl
            rw [hdb] at hne
            exact absurd rfl hne
      · exact absurd rfl hne
    · exact absurd rfl hne

/-- Witness for C1 at a concrete run: user 1 uploads `image/png` with
caption `"hi"`, storage answers 200 with url `"u"` and name `"n"`. -/
theorem upload_commits_iff_status_200_witness :
    (upload_file 1 "image/png" "hi"
        ⟨none, none, .returns ⟨"u", "n", 200⟩, none⟩ ⟨[], [], 0, 0⟩).1
      = .ok (uploadedPost 1 "image/png" "hi" ⟨"u", "n", 200⟩ ⟨[], [], 0, 0⟩) ∧
    (upload_file 1 "image/png" "hi"
        ⟨none, none, .returns ⟨"u", "n", 200⟩, none⟩ ⟨[], [], 0, 0⟩).2.1.posts
      = [] ++ [uploadedPost 1 "image/png" "hi" ⟨"u", "n", 200⟩ ⟨[], [], 0, 0⟩] := by
  have h := ((upload_commits_iff_status_200 1 "image/png" "hi"
      ⟨none, none, .returns ⟨"u", "n", 200⟩, none⟩ ⟨[], [], 0, 0⟩).1
      ⟨"u", "n", 200⟩ rfl rfl rfl rfl).1 rfl
  exact ⟨h.1, h.2.1⟩

/-- **C2** (evaluation at the failing input): when storage returns a
response whose status code is 500 — a non-200 status without an exception
— the handler falls off the end of the `if` and returns Python `None`
(HTTP 200 with a `null` body); no `InternalError` is raised and nothing
is committed. -/
theorem upload_non200_status_returns_null :
    (upload_file 1 "image/png" "c"
        ⟨none, none, .returns ⟨"u", "n", 500⟩, none⟩ ⟨[], [], 0, 0⟩).1
      = .nullResponse ∧
    (upload_file 1 "image/png" "c"
        ⟨none, none, .returns ⟨"u", "n", 500⟩, none⟩ ⟨[], [], 0, 0⟩).2.1
      = ⟨[], [], 0, 0⟩ :=
  ⟨rfl, rfl⟩

/-- **C3** (counterexample): on a fully successful upload, the read
handle from `open(temp_file_path, "rb")` that was passed to the storage
client is still open after the handler returns — the code never closes
it — so "every open handle to the temporary file is closed" fails. -/
theorem upload_read_handle_left_open :
    ¬ ((upload_file 1 "image/png" "c"
          ⟨none, none, .returns ⟨"u", "n", 200⟩, none⟩
          ⟨[], [], 0, 0⟩).2.2.tempReadOpen = false) := by
  decide

/-- **C3** (amended): on every exit path of the upload handler the
temporary file is no longer on disk and the write handle from its
creation is closed; the claim's further assertion that every handle to
the temporary file is closed is refuted by the counterexample (the read
handle stays open). -/
theorem upload_removes_temp_and_closes_write (uid : Nat) (ct cap : String)
    (f : UploadFaults) (db : DB) :
    (upload_file uid ct cap f db).2.2.tempFileOnDisk = false ∧
    (upload_file uid ct cap f db).2.2.tempWriteOpen = false := by
  obtain ⟨tc, cf, st, co⟩ := f
  rcases tc with _ | m1
  · rcases cf with _ | m2
    · rcases st with m3 | resp
      · exact ⟨rfl, rfl⟩
      · rcases co with _ | m4 <;>
          (simp only [upload_file]; split <;> exact ⟨rfl, rfl⟩)
    · exact ⟨rfl, rfl⟩
  · exact ⟨rfl, rfl⟩

/-- **C4**: whenever the upload handler returns a `Post`, its `file_type`
is `"video"` exactly when the declared content type starts with
`"video/"`, and `"image"` otherwise. -/
theorem upload_file_type_video_iff (uid : Nat) (ct cap : String)
    (f : UploadFaults) (db : DB) (p : Post)
    (h : (upload_file uid ct cap f db).1 = .ok p) :
    (strStartsWith ct "video/" = true → p.file_type = "video") ∧
    (strStartsWith ct "video/" = false → p.file_type = "image") := by
  obtain ⟨tc, cf, st, co⟩ := f
  rcases tc with _ | m1
  · rcases cf with _ | m2
    · rcases st with m3 | resp
      · exact absurd h (by simp [upload_file])
      · rcases co with _ | m4
        · by_cases h200 : resp.http_status_code = 200
          · rw [upload_file_eval_success uid ct cap resp db h200] at h
            have hp : UploadResult.ok (uploadedPost uid ct cap resp db)
                = .ok p := h
            injection hp with hp'
            subst hp'
            constructor <;> intro hsw <;>
              simp [uploadedPost, derive_file_type, hsw]
          · rw [upload_file_eval_non200 uid ct cap resp none db h200] at h
            exact absurd h (by simp)
        · have hne : (upload_file uid ct cap
              ⟨none, none, .returns resp, some m4⟩ db).1 ≠ .ok p := by
            simp only [upload_file]
            split <;> simp
          exact absurd h hne
    · exact absurd h (by simp [upload_file])
  · exact absurd h (by simp [upload_file])

/-- Witness for C4: a concrete upload with content type `"video/mp4"`
yields `file_type = "video"`. -/
theorem upload_file_type_video_iff_witness :
    strStartsWith "video/mp4" "video/" = true ∧
    (uploadedPost 1 "video/mp4" "" ⟨"u", "n", 200⟩
        ⟨[], [], 0, 0⟩).file_type = "video" := by
  refine ⟨by decide, ?_⟩
  exact (upload_file_type_video_iff 1 "video/mp4" ""
      ⟨none, none, .returns ⟨"u", "n", 200⟩, none⟩ ⟨[], [], 0, 0⟩
      (uploadedPost 1 "video/mp4" "" ⟨"u", "n", 200⟩ ⟨[], [], 0, 0⟩)
      rfl).1 (by decide)

/-! ### Feed handler lemmas -/

theorem mem_get_feed_iff (c : Nat) (db : DB) (e : FeedEntry) :
    e ∈ (get_feed c db).1 ↔ ∃ p ∈ db.posts, postProj c db.users p = e := by
  simp only [get_feed, List.mem_map]
  constructor
  · rintro ⟨p, hp, rfl⟩
    exact ⟨p, (List.perm_insertionSort createdAtDesc db.posts).mem_iff.mp hp,
      rfl⟩
  · rintro ⟨p, hp, rfl⟩
    exact ⟨p, (List.perm_insertionSort createdAtDesc db.posts).mem_iff.mpr hp,
      rfl⟩

/-- **C5**: the feed is sorted by `created_at` descending, and it
contains the projection of every `Post` row in the store. -/
theorem get_feed_sorted_and_complete (c : Nat) (db : DB) :
    List.Sorted (fun a b : FeedEntry => b.created_at ≤ a.created_at)
      (get_feed c db).1 ∧
    ∀ p ∈ db.posts, postProj c db.users p ∈ (get_feed c db).1 := by
  constructor
  · have hs := List.sorted_insertionSort createdAtDesc db.posts
    exact List.Pairwise.map _ (fun a b h => h) hs
  · intro p hp
    exact (mem_get_feed_iff c db _).mpr ⟨p, hp, rfl⟩

/-- Witness for C5: a concrete one-post store; the post's projection is
in the feed, and the feed is sorted. -/
theorem get_feed_sorted_and_complete_witness :
    List.Sorted (fun a b : FeedEntry => b.created_at ≤ a.created_at)
      (get_feed 7 ⟨[⟨1, 7, "cap", "u", "image", "n", 3⟩],
        [⟨7, "a@b"⟩], 2, 4⟩).1 ∧
    postProj 7 [⟨7, "a@b"⟩] ⟨1, 7, "cap", "u", "image", "n", 3⟩
      ∈ (get_feed 7 ⟨[⟨1, 7, "cap", "u", "image", "n", 3⟩],
          [⟨7, "a@b"⟩], 2, 4⟩).1 := by
  have h := get_feed_sorted_and_complete 7
    ⟨[⟨1, 7, "cap", "u", "image", "n", 3⟩], [⟨7, "a@b"⟩], 2, 4⟩
  exact ⟨h.1, h.2 ⟨1, 7, "cap", "u", "image", "n", 3⟩ (by simp)⟩

/-- **C6**: every feed entry is the projection of a stored post, and its
`is_owner` flag is `true` exactly when that post's `user_id` equals the
caller's id. -/
theorem get_feed_is_owner_iff (c : Nat) (db : DB) :
    ∀ e ∈ (get_feed c db).1, ∃ p ∈ db.posts,
      postProj c db.users p = e ∧ (e.is_owner = true ↔ p.user_id = c) := by
  intro e he
  obtain ⟨p, hp, hpe⟩ := (mem_get_feed_iff c db e).mp he
  refine ⟨p, hp, hpe, ?_⟩
  subst hpe
  simp [postProj]

/-- Witness for C6: a concrete feed call where the only post belongs to
the caller. -/
theorem get_feed_is_owner_iff_witness :
    ∃ p ∈ [(⟨1, 7, "cap", "u", "image", "n", 3⟩ : Post)],
      postProj 7 [⟨7, "a@b"⟩] p
          = postProj 7 [⟨7, "a@b"⟩] ⟨1, 7, "cap", "u", "image", "n", 3⟩ ∧
      ((postProj 7 [⟨7, "a@b"⟩]
          ⟨1, 7, "cap", "u", "image", "n", 3⟩).is_owner = true
        ↔ p.user_id = 7) := by
  exact get_feed_is_owner_iff 7
    ⟨[⟨1, 7, "cap", "u", "image", "n", 3⟩], [⟨7, "a@b"⟩], 2, 4⟩
    (postProj 7 [⟨7, "a@b"⟩] ⟨1, 7, "cap", "u", "image", "n", 3⟩)
    ((mem_get_feed_iff 7 _ _).mpr
      ⟨⟨1, 7, "cap", "u", "image", "n", 3⟩, by simp, rfl⟩)

theorem user_dict_get_not_found (users : List User) (k : Nat)
    (h : ∀ u ∈ users, u.id ≠ k) : user_dict_get users k = "Unknown" := by
  unfold user_dict_get
  have hn : users.reverse.find? (fun u => u.id == k) = none := by
    rw [List.find?_eq_none]
    intro u hu
    simp only [beq_iff_eq]
    exact h u (List.mem_reverse.mp hu)
  rw [hn]

theorem user_dict_get_found (users : List User) (u : User)
    (hnd : (users.map User.id).Nodup) (hu : u ∈ users) :
    user_dict_get users u.id = u.email := by
  have hs : (users.reverse.find? (fun x => x.id == u.id)).isSome := by
    rw [List.find?_isSome]
    exact ⟨u, List.mem_reverse.mpr hu, by simp⟩
  obtain ⟨v, hv⟩ := Option.isSome_iff_exists.mp hs
  have hvmem : v ∈ users := List.mem_reverse.mp (List.mem_of_find?_eq_some hv)
  have hvid : v.id = u.id := by
    have hb := List.find?_some hv
    simpa using hb
  have hvu : v = u := List.inj_on_of_nodup_map hnd hvmem hu hvid
  unfold user_dict_get
  rw [hv, hvu]

/-- **C7**: every feed entry is the projection of a stored post; its
`email` equals the author's email when a user row with the post's
`user_id` exists (user ids being unique, as the primary key makes them),
and the literal `"Unknown"` when no such user exists. -/
theorem get_feed_email_resolution (c : Nat) (db : DB)
    (hnd : (db.users.map User.id).Nodup) :
    ∀ e ∈ (get_feed c db).1, ∃ p ∈ db.posts,
      postProj c db.users p = e ∧
      (∀ u ∈ db.users, u.id = p.user_id → e.email = u.email) ∧
      ((∀ u ∈ db.users, u.id ≠ p.user_id) → e.email = "Unknown") := by
  intro e he
  obtain ⟨p, hp, hpe⟩ := (mem_get_feed_iff c db e).mp he
  refine ⟨p, hp, hpe, ?_, ?_⟩
  · intro u hu hid
    subst hpe
    show user_dict_get db.users p.user_id = u.email
    rw [← hid]
    exact user_dict_get_found db.users u hnd hu
  · intro hnone
    subst hpe
    show user_dict_get db.users p.user_id = "Unknown"
    exact user_dict_get_not_found db.users p.user_id hnone

/-- Witness for C7: a concrete feed call where the author exists. -/
theorem get_feed_email_resolution_witness :
    ∃ p ∈ [(⟨1, 7, "cap", "u", "image", "n", 3⟩ : Post)],
      postProj 7 [⟨7, "a@b"⟩] p
          = postProj 7 [⟨7, "a@b"⟩] ⟨1, 7, "cap", "u", "image", "n", 3⟩ ∧
      (∀ u ∈ [(⟨7, "a@b"⟩ : User)], u.id = p.user_id →
        (postProj 7 [⟨7, "a@b"⟩]
          ⟨1, 7, "cap", "u", "image", "n", 3⟩).email = u.email) ∧
      ((∀ u ∈ [(⟨7, "a@b"⟩ : User)], u.id ≠ p.user_id) →
        (postProj 7 [⟨7, "a@b"⟩]
          ⟨1, 7, "cap", "u", "image", "n", 3⟩).email = "Unknown") := by
  exact get_feed_email_resolution 7
    ⟨[⟨1, 7, "cap", "u", "image", "n", 3⟩], [⟨7, "a@b"⟩], 2, 4⟩ (by simp)
    (postProj 7 [⟨7, "a@b"⟩] ⟨1, 7, "cap", "u", "image", "n", 3⟩)
    ((mem_get_feed_iff 7 _ _).mpr
      ⟨⟨1, 7, "cap", "u", "image", "n", 3⟩, by simp, rfl⟩)

/-- **C10**: the feed handler is read-only — after a feed call the post
table and the user table of the committed database state are exactly as
they were before the call. -/
theorem get_feed_read_only (c : Nat) (db : DB) :
    (get_feed c db).2.posts = db.posts ∧ (get_feed c db).2.users = db.users :=
  ⟨rfl, rfl⟩

/-! ### Delete handler lemmas -/

/-- **C8** (counterexample): deleting the nonexistent post `"5"` from an
empty store does not yield status 404 — the deliberately raised
`HTTPException(404)` is caught by the handler's broad `except Exception`
clause and rethrown, so the caller sees status 500. -/
theorem delete_missing_post_not_404 :
    ¬ ∃ d : String,
        (delete_post 1 "5" ⟨[], [], 0, 0⟩).1 = .httpError 404 d := by
  rintro ⟨d, hd⟩
  have h5 : (delete_post 1 "5" ⟨[], [], 0, 0⟩).1
      = .httpError 500 (httpExcStr 404 "Post not found") := rfl
  rw [h5] at hd
  simp at hd

/-- **C8** (amended): deleting a well-formed post id with no matching
row fails with status 500 whose detail carries the original
`404: Post not found` message, and the database state is unchanged. -/
theorem delete_missing_post_500 (c : Nat) (s : String) (pid : Nat) (db : DB)
    (h1 : uuidParse s = some pid)
    (h2 : ∀ p ∈ db.posts, p.id ≠ pid) :
    delete_post c s db
      = (.httpError 500 (httpExcStr 404 "Post not found"), db) := by
  have hf : db.posts.find? (fun p => p.id == pid) = none := by
    rw [List.find?_eq_none]
    intro p hp
    simp only [beq_iff_eq]
    exact h2 p hp
  simp [delete_post, h1, hf]

/-- Witness for the amended C8 at a concrete input. -/
theorem delete_missing_post_500_witness :
    delete_post 1 "5" ⟨[], [], 0, 0⟩
      = (.httpError 500 (httpExcStr 404 "Post not found"), ⟨[], [], 0, 0⟩) :=
  delete_missing_post_500 1 "5" 5 ⟨[], [], 0, 0⟩ (by decide) (by simp)

/-- **C9** (counterexample): caller 1 deleting post `"5"` owned by user 2
does not yield status 403 — the raised `HTTPException(403)` is caught by
the broad `except Exception` clause and rethrown as status 500. -/
theorem delete_not_owner_not_403 :
    ¬ ∃ d : String,
        (delete_post 1 "5"
          ⟨[⟨5, 2, "cap", "u", "image", "n", 3⟩], [], 9, 9⟩).1
          = .httpError 403 d := by
  rintro ⟨d, hd⟩
  have h5 : (delete_post 1 "5"
      ⟨[⟨5, 2, "cap", "u", "image", "n", 3⟩], [], 9, 9⟩).1
      = .httpError 500
          (httpExcStr 403 "You didn't have access to delete this post.") := rfl
  rw [h5] at hd
  simp at hd

/-- **C9** (amended): deleting an existing post not owned by the caller
fails with status 500 whose detail carries the original `403` message,
and the post remains persisted (the database state is unchanged). -/
theorem delete_not_owner_500 (c : Nat) (s : String) (pid : Nat) (db : DB)
    (post : Post) (h1 : uuidParse s = some pid)
    (h2 : db.posts.find? (fun p => p.id == pid) = some post)
    (h3 : post.user_id ≠ c) :
    delete_post c s db
      = (.httpError 500
          (httpExcStr 403 "You didn't have access to delete this post."),
         db) := by
  simp [delete_post, h1, h2, beq_iff_eq, h3]

/-- Witness for the amended C9 at a concrete input. -/
theorem delete_not_owner_500_witness :
    delete_post 1 "5" ⟨[⟨5, 2, "cap", "u", "image", "n", 3⟩], [], 9, 9⟩
      = (.httpError 500
          (httpExcStr 403 "You didn't have access to delete this post."),
         ⟨[⟨5, 2, "cap", "u", "image", "n", 3⟩], [], 9, 9⟩) :=
  delete_not_owner_500 1 "5" 5
    ⟨[⟨5, 2, "cap", "u", "image", "n", 3⟩], [], 9, 9⟩
    ⟨5, 2, "cap", "u", "image", "n", 3⟩ (by decide) (by decide) (by decide)
